import Mathlib

/-!
# BuildTask API types and their validation markers

A shallow embedding of `api/v1alpha1/buildtask_types.go`.

The Go file declares the `BuildTask` data model and attaches its validation to the
declarations as kubebuilder markers: `Enum`, `MinLength`, `Minimum`, `default` and the
cross-field `XValidation` rules.  Here every struct becomes a Lean structure whose fields
carry the JSON names the rules are written against (`self.type`, `self.git`, ...), every
marker becomes a check that yields a field-addressed violation, and `Validate` collects the
checks of all markers reachable from `BuildTaskSpec`.

Conventions of the embedding:
* a Go pointer field (`*T` with `omitempty`) is an `Option T`; `has(self.f)` is `isSome`;
* a Go `string` field is a `String`; the object that reaches the rules is the serialised
  Go value, in which an empty string field tagged `omitempty` is left out: selecting such
  a field in a rule without a `has` guard is an evaluation error, and a rule that does not
  evaluate to true is a violation;
* `int32` and `int64` fields are `Int` (only lower bounds are checked, no arithmetic);
* a `Required` marker sits only on fields without `omitempty` (`context`, `type`), which a
  Go value always carries, so it gives rise to no check;
* the two `DockerfileSource` rules spell their empty string literal with the character
  U+201D, which does not open a string literal in the rule language: as written these two
  rules do not compile, and a rule that does not compile fails on every value.
-/

namespace Kubuild

/-! ## Enumerated string types -/

/-- BuildTaskPhase is a coarse-grained lifecycle phase for a build (a Go string). -/
abbrev BuildTaskPhase := String

def BuildTaskPhasePending : BuildTaskPhase := "Pending"
def BuildTaskPhaseRunning : BuildTaskPhase := "Running"
def BuildTaskPhaseSucceeded : BuildTaskPhase := "Succeeded"
def BuildTaskPhaseFailed : BuildTaskPhase := "Failed"

/-- BuildContextType selects the source type of the build context (a Go string). -/
abbrev BuildContextType := String

def BuildContextTypeGit : BuildContextType := "Git"
def BuildContextTypePVC : BuildContextType := "PVC"
def BuildContextTypeS3 : BuildContextType := "S3"

/-- DockerfileSourceType selects how the Dockerfile is provided (a Go string). -/
abbrev DockerfileSourceType := String

def DockerfileSourceTypePath : DockerfileSourceType := "Path"
def DockerfileSourceTypeInline : DockerfileSourceType := "Inline"

/-! ## Data model -/

/-- LocalSecretReference references a Secret in the same namespace. -/
structure LocalSecretReference where
  name : String
deriving DecidableEq, Repr

structure GitContext where
  url : String
  revision : String
  subPath : String
  secretRef : Option LocalSecretReference
  depth : Option Int
deriving DecidableEq, Repr

structure PVCContext where
  claimName : String
  path : String
deriving DecidableEq, Repr

structure S3Context where
  bucket : String
  key : String
  endpoint : String
  region : String
  secretRef : Option LocalSecretReference
deriving DecidableEq, Repr

/-- BuildContext defines the source of the build context. -/
structure BuildContext where
  type : BuildContextType
  git : Option GitContext
  pvc : Option PVCContext
  s3 : Option S3Context
deriving DecidableEq, Repr

/-- DockerfileSource defines how the Dockerfile is provided. -/
structure DockerfileSource where
  type : DockerfileSourceType
  path : String
  inline : String
deriving DecidableEq, Repr

structure BuildOutput where
  push : Option Bool
  images : List String
  skipTLSVerify : Option Bool
  insecure : Option Bool
deriving DecidableEq, Repr

/-- The core/v1 `EnvVar` of the Kubernetes API, declared outside this repository; the
file under study attaches no marker to it. -/
structure EnvVar where
  name : String
  value : String
deriving DecidableEq, Repr

/-- BuildahSpec contains buildah runtime options. -/
structure BuildahSpec where
  rootless : Option Bool
  storageDriver : String
  env : List EnvVar
deriving DecidableEq, Repr

structure CacheSpec where
  enabled : Option Bool
  pvcName : String
  subPath : String
deriving DecidableEq, Repr

structure RetentionSpec where
  successfulJobsTTLSecondsAfterFinished : Option Int
  failedJobsTTLSecondsAfterFinished : Option Int
deriving DecidableEq, Repr

structure ManualTrigger where
  nonce : String
deriving DecidableEq, Repr

/-- TriggerSpec defines how a build is triggered. -/
structure TriggerSpec where
  manual : Option ManualTrigger
deriving DecidableEq, Repr

/-- The core/v1 `ResourceRequirements` of the Kubernetes API, declared outside this
repository; the file under study attaches no marker to it. -/
structure ResourceRequirements where
  limits : List (String × String)
  requests : List (String × String)
deriving DecidableEq, Repr

/-- BuildTaskSpec defines the desired state of BuildTask. -/
structure BuildTaskSpec where
  image : String
  output : Option BuildOutput
  context : BuildContext
  dockerfile : Option DockerfileSource
  buildArgs : List (String × String)
  pushSecretRef : Option LocalSecretReference
  serviceAccountName : String
  resources : ResourceRequirements
  timeoutSeconds : Option Int
  backoffLimit : Option Int
  retention : Option RetentionSpec
  cache : Option CacheSpec
  buildah : Option BuildahSpec
  trigger : Option TriggerSpec
deriving DecidableEq, Repr

/-! ## Violations -/

/-- The marker a violation comes from, with the marker's own argument; for a cross-field
rule that did not evaluate, the reason: a selected key that is absent, or a rule expression
that does not compile. -/
inductive Rule where
  | enum (allowed : List String)
  | minLength (n : Nat)
  | minimum (m : Int)
  | xvalidation (message : String)
  | noSuchKey (key : String)
  | compileError
deriving DecidableEq, Repr

/-- A field-addressed violation: the path of the offending value and the marker it broke. -/
structure Violation where
  path : String
  rule : Rule
deriving DecidableEq, Repr

/-- One check: no violation when it holds, the given violation when it fails. -/
def check (ok : Bool) (v : Violation) : List Violation :=
  if ok then [] else [v]

/-- The marker `+kubebuilder:validation:MinLength=n` on a string field. -/
def checkMinLength (path : String) (n : Nat) (s : String) : List Violation :=
  check (decide (n ≤ s.length)) ⟨path, Rule.minLength n⟩

/-- The marker `+kubebuilder:validation:Minimum=m` on an optional integer field: an absent
field is not checked. -/
def checkMinimum (path : String) (m : Int) (v : Option Int) : List Violation :=
  match v with
  | none => []
  | some x => check (decide (m ≤ x)) ⟨path, Rule.minimum m⟩

/-- The marker `+kubebuilder:validation:Enum=...` on a string field. -/
def checkEnum (path : String) (allowed : List String) (s : String) : List Violation :=
  check (decide (s ∈ allowed)) ⟨path, Rule.enum allowed⟩

/-- The checks of an optional sub-object: none when it is absent. -/
def checkOpt {α : Type} (f : α → List Violation) (v : Option α) : List Violation :=
  match v with
  | none => []
  | some x => f x

/-! ## BuildContext: the Enum on `type` and the three cross-field rules -/

/-- Rule `self.type == 'Git' ? has(self.git) && !has(self.pvc) && !has(self.s3) : true`. -/
def contextRuleGit (c : BuildContext) : Bool :=
  if c.type == "Git" then c.git.isSome && !c.pvc.isSome && !c.s3.isSome else true

/-- Rule `self.type == 'PVC' ? has(self.pvc) && !has(self.git) && !has(self.s3) : true`. -/
def contextRulePVC (c : BuildContext) : Bool :=
  if c.type == "PVC" then c.pvc.isSome && !c.git.isSome && !c.s3.isSome else true

/-- Rule `self.type == 'S3' ? has(self.s3) && !has(self.git) && !has(self.pvc) : true`. -/
def contextRuleS3 (c : BuildContext) : Bool :=
  if c.type == "S3" then c.s3.isSome && !c.git.isSome && !c.pvc.isSome else true

def contextMessageGit : String :=
  "when context.type=Git, context.git must be set and pvc/s3 must be empty"

def contextMessagePVC : String :=
  "when context.type=PVC, context.pvc must be set and git/s3 must be empty"

def contextMessageS3 : String :=
  "when context.type=S3, context.s3 must be set and git/pvc must be empty"

/-- The violations of the three `XValidation` rules on `BuildContext`: every rule is
evaluated, and each failing rule reports at the context itself. -/
def contextRuleViolations (c : BuildContext) : List Violation :=
  check (contextRuleGit c) ⟨"spec.context", Rule.xvalidation contextMessageGit⟩
    ++ check (contextRulePVC c) ⟨"spec.context", Rule.xvalidation contextMessagePVC⟩
    ++ check (contextRuleS3 c) ⟨"spec.context", Rule.xvalidation contextMessageS3⟩

/-- The `Enum=Git;PVC;S3` marker of `BuildContextType`, applied to `context.type`. -/
def contextTypeViolations (c : BuildContext) : List Violation :=
  checkEnum "spec.context.type" ["Git", "PVC", "S3"] c.type

/-- The context validation: the Enum on the tag together with the three cross-field
rules. -/
def contextValidation (c : BuildContext) : List Violation :=
  contextTypeViolations c ++ contextRuleViolations c

/-! ## DockerfileSource: the Enum on `type`, the two cross-field rules, the default -/

/-- The outcome of a cross-field rule on a value: a Boolean, an evaluation error for a
selected key that the object does not carry, or no outcome at all because the rule
expression does not compile. -/
inductive CelResult where
  | value (b : Bool)
  | noSuchKey (key : String)
  | compileError
deriving DecidableEq, Repr

/-- Selection `self.key` of a string field tagged `omitempty`: the serialised object
carries the key only when the Go string is non-empty. -/
def selectString (v : String) : Option String :=
  if v == "" then none else some v

/-- The comparison `self.key == literal` on a selected string field. -/
def celEq (key : String) (field : Option String) (literal : String) : CelResult :=
  match field with
  | none => CelResult.noSuchKey key
  | some v => CelResult.value (v == literal)

/-- The comparison `self.key != literal` on a selected string field. -/
def celNe (key : String) (field : Option String) (literal : String) : CelResult :=
  match field with
  | none => CelResult.noSuchKey key
  | some v => CelResult.value (v != literal)

/-- The conjunction `a && b` of the rule language: false as soon as one side is false,
otherwise the error of a side that failed, otherwise true. -/
def celAnd (a b : CelResult) : CelResult :=
  match a, b with
  | CelResult.value false, _ => CelResult.value false
  | _, CelResult.value false => CelResult.value false
  | CelResult.value true, r => r
  | e, _ => e

/-- The characters that open a string literal in the rule language: the ASCII single and
double quotes. -/
def opensStringLiteral (c : Char) : Bool :=
  c == Char.ofNat 39 || c == Char.ofNat 34

/-- The ASCII single quote, which the context and buildah rules use for their literals. -/
def asciiQuote : Char := Char.ofNat 39

/-- The character with which lines 146-147 of the source spell the empty string literal
of the two dockerfile rules: U+201D (bytes E2 80 9D), one typographic quote where two
ASCII quotes are meant. -/
def dockerfileLiteralQuote : Char := Char.ofNat 0x201D

/-- Rule `self.type == 'Path' ? (self.path != L && self.inline == L) : true`, where the
empty string literal `L` is spelled with the given quote character: the rule compiles only
if that character opens a string literal. -/
def dockerfileRulePathWith (quote : Char) (d : DockerfileSource) : CelResult :=
  if opensStringLiteral quote then
    if d.type == "Path" then
      celAnd (celNe "path" (selectString d.path) "") (celEq "inline" (selectString d.inline) "")
    else CelResult.value true
  else CelResult.compileError

/-- Rule `self.type == 'Inline' ? (self.inline != L) : true`, where the empty string
literal `L` is spelled with the given quote character. -/
def dockerfileRuleInlineWith (quote : Char) (d : DockerfileSource) : CelResult :=
  if opensStringLiteral quote then
    if d.type == "Inline" then celNe "inline" (selectString d.inline) ""
    else CelResult.value true
  else CelResult.compileError

/-- The Path rule as line 146 of the source spells it. -/
def dockerfileRulePath (d : DockerfileSource) : CelResult :=
  dockerfileRulePathWith dockerfileLiteralQuote d

/-- The Inline rule as line 147 of the source spells it. -/
def dockerfileRuleInline (d : DockerfileSource) : CelResult :=
  dockerfileRuleInlineWith dockerfileLiteralQuote d

def dockerfileMessagePath : String :=
  "when dockerfile.type=Path, dockerfile.path must be non-empty and dockerfile.inline must be empty"

def dockerfileMessageInline : String :=
  "when dockerfile.type=Inline, dockerfile.inline must be non-empty"

/-- One cross-field rule: no violation when it evaluates to true, the rule's message when
it evaluates to false, and the error when it does not evaluate. -/
def checkRule (path : String) (message : String) (r : CelResult) : List Violation :=
  match r with
  | CelResult.value true => []
  | CelResult.value false => [⟨path, Rule.xvalidation message⟩]
  | CelResult.noSuchKey key => [⟨path, Rule.noSuchKey key⟩]
  | CelResult.compileError => [⟨path, Rule.compileError⟩]

/-- The violations of the two `XValidation` rules on `DockerfileSource`. -/
def dockerfileRuleViolations (d : DockerfileSource) : List Violation :=
  checkRule "spec.dockerfile" dockerfileMessagePath (dockerfileRulePath d)
    ++ checkRule "spec.dockerfile" dockerfileMessageInline (dockerfileRuleInline d)

/-- The `Enum=Path;Inline` marker of `DockerfileSourceType`, applied to
`dockerfile.type`. -/
def dockerfileTypeViolations (d : DockerfileSource) : List Violation :=
  checkEnum "spec.dockerfile.type" ["Path", "Inline"] d.type

/-- The marker `+kubebuilder:default="Dockerfile"` on `DockerfileSource.Path`: an unset
path (the empty Go string, dropped by `omitempty`) is filled in. -/
def defaultDockerfile (d : DockerfileSource) : DockerfileSource :=
  if d.path == "" then { d with path := "Dockerfile" } else d

/-- The dockerfile rules on the optional `spec.dockerfile`: an absent dockerfile is not
checked. -/
def specDockerfileRuleViolations (s : BuildTaskSpec) : List Violation :=
  checkOpt dockerfileRuleViolations s.dockerfile

/-! ## BuildahSpec: the rootless rule -/

/-- Rule `!has(self.rootless) || self.rootless == true`. -/
def buildahRule (b : BuildahSpec) : Bool :=
  !b.rootless.isSome || b.rootless == some true

def buildahMessage : String :=
  "buildah.rootless must be true; privileged mode is not supported"

/-- The violations of the `XValidation` rule on `BuildahSpec`. -/
def buildahRuleViolations (b : BuildahSpec) : List Violation :=
  check (buildahRule b) ⟨"spec.buildah", Rule.xvalidation buildahMessage⟩

/-- The rootless rule on the optional `spec.buildah`: an absent section is not checked. -/
def specBuildahRuleViolations (s : BuildTaskSpec) : List Violation :=
  checkOpt buildahRuleViolations s.buildah

/-! ## The markers of `BuildTaskSpec`, grouped by kind -/

/-- All `Enum` markers reachable from the spec. -/
def enumViolations (s : BuildTaskSpec) : List Violation :=
  contextTypeViolations s.context ++ checkOpt dockerfileTypeViolations s.dockerfile

/-- The `MinLength=1` marker on `LocalSecretReference.Name`, for a reference stored at
the given path. -/
def secretRefViolations (path : String) (r : LocalSecretReference) : List Violation :=
  checkMinLength path 1 r.name

/-- The `MinLength=1` markers of `GitContext`: `url`, and the name of `secretRef`. -/
def gitMinLengthViolations (g : GitContext) : List Violation :=
  checkMinLength "spec.context.git.url" 1 g.url
    ++ checkOpt (secretRefViolations "spec.context.git.secretRef.name") g.secretRef

/-- The `MinLength=1` marker of `PVCContext`: `claimName`. -/
def pvcMinLengthViolations (p : PVCContext) : List Violation :=
  checkMinLength "spec.context.pvc.claimName" 1 p.claimName

/-- The `MinLength=1` markers of `S3Context`: `bucket`, `key`, and the name of
`secretRef`. -/
def s3MinLengthViolations (x : S3Context) : List Violation :=
  checkMinLength "spec.context.s3.bucket" 1 x.bucket
    ++ checkMinLength "spec.context.s3.key" 1 x.key
    ++ checkOpt (secretRefViolations "spec.context.s3.secretRef.name") x.secretRef

/-- All `MinLength` markers reachable from the spec: the required-string checks.  They
apply to every payload that is present, whatever `context.type` says. -/
def minLengthViolations (s : BuildTaskSpec) : List Violation :=
  checkMinLength "spec.image" 1 s.image
    ++ checkOpt gitMinLengthViolations s.context.git
    ++ checkOpt pvcMinLengthViolations s.context.pvc
    ++ checkOpt s3MinLengthViolations s.context.s3
    ++ checkOpt (secretRefViolations "spec.pushSecretRef.name") s.pushSecretRef

/-- The `Minimum=0` markers of `RetentionSpec`. -/
def retentionMinimumViolations (r : RetentionSpec) : List Violation :=
  checkMinimum "spec.retention.successfulJobsTTLSecondsAfterFinished" 0
      r.successfulJobsTTLSecondsAfterFinished
    ++ checkMinimum "spec.retention.failedJobsTTLSecondsAfterFinished" 0
      r.failedJobsTTLSecondsAfterFinished

/-- All `Minimum` markers reachable from the spec: the numeric lower-bound checks. -/
def minimumViolations (s : BuildTaskSpec) : List Violation :=
  checkOpt (fun g => checkMinimum "spec.context.git.depth" 1 g.depth) s.context.git
    ++ checkMinimum "spec.timeoutSeconds" 1 s.timeoutSeconds
    ++ checkMinimum "spec.backoffLimit" 0 s.backoffLimit
    ++ checkOpt retentionMinimumViolations s.retention

/-- All `XValidation` rules reachable from the spec. -/
def xValidationViolations (s : BuildTaskSpec) : List Violation :=
  contextRuleViolations s.context
    ++ specDockerfileRuleViolations s
    ++ specBuildahRuleViolations s

/-- Validation of a spec: every marker declared on `BuildTaskSpec` and on the types it
contains is checked, none is skipped after a failure, and the violations are collected. -/
def Validate (s : BuildTaskSpec) : List Violation :=
  enumViolations s ++ minLengthViolations s ++ minimumViolations s ++ xValidationViolations s

/-! ## Defaulting -/

/-- The marker `+kubebuilder:default=true` on `BuildOutput.Push`. -/
def defaultOutput (o : BuildOutput) : BuildOutput :=
  match o.push with
  | none => { o with push := some true }
  | some _ => o

/-- The marker `+kubebuilder:default="/"` on `PVCContext.Path`. -/
def defaultPVC (p : PVCContext) : PVCContext :=
  if p.path == "" then { p with path := "/" } else p

/-- The marker `+kubebuilder:default=true` on `BuildahSpec.Rootless`. -/
def defaultBuildah (b : BuildahSpec) : BuildahSpec :=
  match b.rootless with
  | none => { b with rootless := some true }
  | some _ => b

/-- Defaulting of a spec: each `default` marker fills its own field inside a section that
is present.  No marker sits on an optional section itself, so an absent section stays
absent. -/
def Default (s : BuildTaskSpec) : BuildTaskSpec :=
  { s with
    output := s.output.map defaultOutput
    context := { s.context with pvc := s.context.pvc.map defaultPVC }
    dockerfile := s.dockerfile.map defaultDockerfile
    buildah := s.buildah.map defaultBuildah }

/-! ## Properties of a spec, in the words of the specification -/

/-- Exactly the payload named by the tag is present, and the tag is one of the three. -/
def ExactlyOneContextPayload (c : BuildContext) : Prop :=
  (c.type = "Git" ∧ c.git ≠ none ∧ c.pvc = none ∧ c.s3 = none)
    ∨ (c.type = "PVC" ∧ c.pvc ≠ none ∧ c.git = none ∧ c.s3 = none)
    ∨ (c.type = "S3" ∧ c.s3 ≠ none ∧ c.git = none ∧ c.pvc = none)

/-- Exactly one dockerfile payload is set and it matches the tag: `Path` with a path and
no inline content, or `Inline` with inline content and no path. -/
def ExactlyOneDockerfilePayload (d : DockerfileSource) : Prop :=
  (d.type = "Path" ∧ d.path ≠ "" ∧ d.inline = "")
    ∨ (d.type = "Inline" ∧ d.inline ≠ "" ∧ d.path = "")

/-- The required strings `image`, `git.url`, `pvc.claimName`, `s3.bucket`, `s3.key` are
non-empty, each in the payload that carries it. -/
def RequiredStringsNonEmpty (s : BuildTaskSpec) : Prop :=
  s.image ≠ ""
    ∧ (∀ g, s.context.git = some g → g.url ≠ "")
    ∧ (∀ p, s.context.pvc = some p → p.claimName ≠ "")
    ∧ (∀ x, s.context.s3 = some x → x.bucket ≠ "" ∧ x.key ≠ "")

/-- Every secret reference that is present (`git.secretRef`, `s3.secretRef`,
`pushSecretRef`) has a non-empty name. -/
def SecretNamesNonEmpty (s : BuildTaskSpec) : Prop :=
  (∀ g r, s.context.git = some g → g.secretRef = some r → r.name ≠ "")
    ∧ (∀ x r, s.context.s3 = some x → x.secretRef = some r → r.name ≠ "")
    ∧ (∀ r, s.pushSecretRef = some r → r.name ≠ "")

/-- Every bounded integer that is present satisfies its minimum. -/
def NumericBoundsHold (s : BuildTaskSpec) : Prop :=
  (∀ g d, s.context.git = some g → g.depth = some d → 1 ≤ d)
    ∧ (∀ t, s.timeoutSeconds = some t → 1 ≤ t)
    ∧ (∀ b, s.backoffLimit = some b → 0 ≤ b)
    ∧ (∀ r t, s.retention = some r → r.successfulJobsTTLSecondsAfterFinished = some t → 0 ≤ t)
    ∧ (∀ r t, s.retention = some r → r.failedJobsTTLSecondsAfterFinished = some t → 0 ≤ t)

/-- Some bounded integer is present and below its minimum. -/
def SomeBoundViolated (s : BuildTaskSpec) : Prop :=
  (∃ g d, s.context.git = some g ∧ g.depth = some d ∧ d < 1)
    ∨ (∃ t, s.timeoutSeconds = some t ∧ t < 1)
    ∨ (∃ b, s.backoffLimit = some b ∧ b < 0)
    ∨ (∃ r t, s.retention = some r ∧ r.successfulJobsTTLSecondsAfterFinished = some t ∧ t < 0)
    ∨ (∃ r t, s.retention = some r ∧ r.failedJobsTTLSecondsAfterFinished = some t ∧ t < 0)

/-- The rootless flag of a present buildah section is not explicitly false. -/
def RootlessNotFalse (s : BuildTaskSpec) : Prop :=
  ∀ b, s.buildah = some b → b.rootless ≠ some false

/-- Validity as the specification words it: one matching context payload, one matching
dockerfile payload when a dockerfile is present, non-empty required strings, bounded
integers within their minimums, rootless not explicitly false, and nothing else. -/
def ClaimedValid (s : BuildTaskSpec) : Prop :=
  ExactlyOneContextPayload s.context
    ∧ (∀ d, s.dockerfile = some d → ExactlyOneDockerfilePayload d)
    ∧ RequiredStringsNonEmpty s
    ∧ NumericBoundsHold s
    ∧ RootlessNotFalse s

/-- Every marker other than the three context cross-field rules is satisfied. -/
def OtherwiseValid (s : BuildTaskSpec) : Prop :=
  enumViolations s = [] ∧ minLengthViolations s = [] ∧ minimumViolations s = []
    ∧ specDockerfileRuleViolations s = [] ∧ specBuildahRuleViolations s = []

/-- The paths of the required strings of the payload selected by `context.type`, after
the path of `image`. -/
def activeRequiredStringPaths (s : BuildTaskSpec) : List String :=
  "spec.image" ::
    (if s.context.type == "Git" then ["spec.context.git.url"]
     else if s.context.type == "PVC" then ["spec.context.pvc.claimName"]
     else if s.context.type == "S3" then ["spec.context.s3.bucket", "spec.context.s3.key"]
     else [])

/-- The image and the required strings of the payload selected by `context.type` are
non-empty. -/
def ActiveRequiredStringsNonEmpty (s : BuildTaskSpec) : Prop :=
  s.image ≠ ""
    ∧ (s.context.type = "Git" → ∀ g, s.context.git = some g → g.url ≠ "")
    ∧ (s.context.type = "PVC" → ∀ p, s.context.pvc = some p → p.claimName ≠ "")
    ∧ (s.context.type = "S3" → ∀ x, s.context.s3 = some x → x.bucket ≠ "" ∧ x.key ≠ "")

/-! ## Example specs -/

/-- A spec with a Git context and nothing optional set. -/
def gitSpec : BuildTaskSpec :=
  { image := "registry/repo:tag"
    output := none
    context :=
      { type := BuildContextTypeGit
        git := some { url := "https://x/y.git", revision := "", subPath := "",
                      secretRef := none, depth := none }
        pvc := none
        s3 := none }
    dockerfile := none
    buildArgs := []
    pushSecretRef := none
    serviceAccountName := ""
    resources := { limits := [], requests := [] }
    timeoutSeconds := none
    backoffLimit := none
    retention := none
    cache := none
    buildah := none
    trigger := none }

/-- The Git spec with a push secret reference whose name is empty. -/
def emptySecretNameSpec : BuildTaskSpec :=
  { gitSpec with pushSecretRef := some { name := "" } }

/-- The Git spec with a push secret reference that has a name. -/
def secretSpec : BuildTaskSpec :=
  { gitSpec with pushSecretRef := some { name := "regcred" } }

/-- An inline Dockerfile with content and no path. -/
def inlineDockerfile : DockerfileSource :=
  { type := DockerfileSourceTypeInline, path := "", inline := "FROM scratch" }

/-- A Dockerfile of type Path with path and inline unset. -/
def pathOnlyDockerfile : DockerfileSource :=
  { type := DockerfileSourceTypePath, path := "", inline := "" }

/-- The Git spec with the Dockerfile of type Path whose path and inline are unset. -/
def pathOnlySpec : BuildTaskSpec :=
  { gitSpec with dockerfile := some pathOnlyDockerfile }

/-- The Git spec with a PVC payload set next to the Git payload. -/
def gitWithPVCSpec : BuildTaskSpec :=
  { gitSpec with
    context := { gitSpec.context with pvc := some { claimName := "data", path := "/" } } }

/-- The Git spec with every bounded integer at its minimum. -/
def boundarySpec : BuildTaskSpec :=
  { gitSpec with
    context :=
      { gitSpec.context with
        git := some { url := "https://x/y.git", revision := "", subPath := "",
                      secretRef := none, depth := some 1 } }
    timeoutSeconds := some 1
    backoffLimit := some 0
    retention := some { successfulJobsTTLSecondsAfterFinished := some 0,
                        failedJobsTTLSecondsAfterFinished := some 0 } }

/-! ## Status -/

/-- The meta/v1 `Time` of the Kubernetes API, as whole seconds. -/
abbrev Time := Int

/-- The meta/v1 `Condition` of the Kubernetes API, declared outside this repository. -/
structure Condition where
  type : String
  status : String
  reason : String
  message : String
deriving DecidableEq, Repr

/-- BuildTaskStatus defines the observed state of BuildTask. -/
structure BuildTaskStatus where
  conditions : List Condition
  observedGeneration : Int
  phase : BuildTaskPhase
  jobName : String
  podName : String
  startTime : Option Time
  endTime : Option Time
  imageDigest : String
  lastTriggerNonce : String
  logURL : String
deriving DecidableEq, Repr

/-! ## Basic facts about the checks -/

theorem one_le_length_iff (s : String) : 1 ≤ s.length ↔ s ≠ "" := by
  rw [Nat.one_le_iff_ne_zero, Ne, Ne, String.ext_iff]
  show ¬ s.data.length = 0 ↔ ¬ s.data = []
  rw [List.length_eq_zero]

theorem check_eq_nil (ok : Bool) (v : Violation) : check ok v = [] ↔ ok = true := by
  cases ok <;> simp [check]

theorem check_length_le (ok : Bool) (v : Violation) : (check ok v).length ≤ 1 := by
  cases ok <;> simp [check]

theorem checkMinLength_eq_nil (path : String) (s : String) :
    checkMinLength path 1 s = [] ↔ s ≠ "" := by
  rw [checkMinLength, check_eq_nil, decide_eq_true_iff, one_le_length_iff]

theorem checkMinimum_eq_nil (path : String) (m : Int) (v : Option Int) :
    checkMinimum path m v = [] ↔ ∀ x, v = some x → m ≤ x := by
  cases v <;> simp [checkMinimum, check_eq_nil]

theorem checkEnum_eq_nil (path : String) (allowed : List String) (s : String) :
    checkEnum path allowed s = [] ↔ s ∈ allowed := by
  rw [checkEnum, check_eq_nil, decide_eq_true_iff]

theorem checkOpt_eq_nil {α : Type} (f : α → List Violation) (v : Option α) :
    checkOpt f v = [] ↔ ∀ x, v = some x → f x = [] := by
  cases v <;> simp [checkOpt]

theorem contextValidation_eq_nil_iff (c : BuildContext) :
    contextValidation c = [] ↔ ExactlyOneContextPayload c := by
  rcases c with ⟨t, g, p, x⟩
  simp only [contextValidation, contextTypeViolations, contextRuleViolations,
    List.append_eq_nil, checkEnum_eq_nil, check_eq_nil, contextRuleGit, contextRulePVC,
    contextRuleS3, ExactlyOneContextPayload]
  by_cases h1 : t = "Git"
  · subst h1
    cases g <;> cases p <;> cases x <;> simp
  · by_cases h2 : t = "PVC"
    · subst h2
      cases g <;> cases p <;> cases x <;> simp
    · by_cases h3 : t = "S3"
      · subst h3
        cases g <;> cases p <;> cases x <;> simp
      · simp [h1, h2, h3]


theorem mem_check (ok : Bool) (v w : Violation) : w ∈ check ok v ↔ ok = false ∧ w = v := by
  cases ok <;> simp [check]

theorem dockerfileLiteralQuote_not_opening :
    opensStringLiteral dockerfileLiteralQuote = false := by
  decide

theorem dockerfileRulePath_eq (d : DockerfileSource) :
    dockerfileRulePath d = CelResult.compileError := by
  simp [dockerfileRulePath, dockerfileRulePathWith, dockerfileLiteralQuote_not_opening]

theorem dockerfileRuleInline_eq (d : DockerfileSource) :
    dockerfileRuleInline d = CelResult.compileError := by
  simp [dockerfileRuleInline, dockerfileRuleInlineWith, dockerfileLiteralQuote_not_opening]

/-- As the source spells them, the two dockerfile rules fail on every dockerfile. -/
theorem dockerfileRuleViolations_eq (d : DockerfileSource) :
    dockerfileRuleViolations d
      = [⟨"spec.dockerfile", Rule.compileError⟩, ⟨"spec.dockerfile", Rule.compileError⟩] := by
  simp [dockerfileRuleViolations, dockerfileRulePath_eq, dockerfileRuleInline_eq, checkRule]

theorem dockerfileRuleViolations_ne_nil (d : DockerfileSource) :
    dockerfileRuleViolations d ≠ [] := by
  rw [dockerfileRuleViolations_eq]
  simp

theorem buildahRuleViolations_eq_nil_iff (b : BuildahSpec) :
    buildahRuleViolations b = [] ↔ b.rootless ≠ some false := by
  rcases b with ⟨r, sd, env⟩
  rw [buildahRuleViolations, check_eq_nil]
  cases r with
  | none => simp [buildahRule]
  | some v => cases v <;> simp [buildahRule]

theorem enumViolations_eq_nil_iff (s : BuildTaskSpec) :
    enumViolations s = [] ↔
      contextTypeViolations s.context = []
        ∧ ∀ d, s.dockerfile = some d → dockerfileTypeViolations d = [] := by
  rw [enumViolations, List.append_eq_nil, checkOpt_eq_nil]

theorem minLengthViolations_eq_nil_iff (s : BuildTaskSpec) :
    minLengthViolations s = [] ↔ RequiredStringsNonEmpty s ∧ SecretNamesNonEmpty s := by
  simp only [minLengthViolations, gitMinLengthViolations, pvcMinLengthViolations,
    s3MinLengthViolations, secretRefViolations, List.append_eq_nil, checkOpt_eq_nil,
    checkMinLength_eq_nil, RequiredStringsNonEmpty, SecretNamesNonEmpty]
  constructor
  · rintro ⟨⟨⟨⟨h1, h2⟩, h3⟩, h4⟩, h5⟩
    exact ⟨⟨h1, fun g hg => (h2 g hg).1, h3, fun x hx => (h4 x hx).1⟩,
      fun g r hg hr => (h2 g hg).2 r hr, fun x r hx hr => (h4 x hx).2 r hr, h5⟩
  · rintro ⟨⟨h1, h2, h3, h4⟩, h5, h6, h7⟩
    exact ⟨⟨⟨⟨h1, fun g hg => ⟨h2 g hg, fun r hr => h5 g r hg hr⟩⟩, h3⟩,
      fun x hx => ⟨h4 x hx, fun r hr => h6 x r hx hr⟩⟩, h7⟩

theorem minimumViolations_eq_nil_iff (s : BuildTaskSpec) :
    minimumViolations s = [] ↔ NumericBoundsHold s := by
  simp only [minimumViolations, retentionMinimumViolations, List.append_eq_nil,
    checkOpt_eq_nil, checkMinimum_eq_nil, NumericBoundsHold]
  constructor
  · rintro ⟨⟨⟨h1, h2⟩, h3⟩, h4⟩
    exact ⟨fun g d hg hd => h1 g hg d hd, h2, h3, fun r t hr ht => (h4 r hr).1 t ht,
      fun r t hr ht => (h4 r hr).2 t ht⟩
  · rintro ⟨h1, h2, h3, h4, h5⟩
    exact ⟨⟨⟨fun g hg d hd => h1 g d hg hd, h2⟩, h3⟩,
      fun r hr => ⟨fun t ht => h4 r t hr ht, fun t ht => h5 r t hr ht⟩⟩

theorem xValidationViolations_eq_nil_iff (s : BuildTaskSpec) :
    xValidationViolations s = [] ↔
      contextRuleViolations s.context = []
        ∧ (∀ d, s.dockerfile = some d → dockerfileRuleViolations d = [])
        ∧ RootlessNotFalse s := by
  simp only [xValidationViolations, specDockerfileRuleViolations, specBuildahRuleViolations,
    List.append_eq_nil, checkOpt_eq_nil, buildahRuleViolations_eq_nil_iff, RootlessNotFalse,
    and_assoc]

/-- Validation accepts a spec exactly when the context carries the one payload its tag
names, a present dockerfile passes its Enum and its two rules, the required strings and
the names of the secret references are non-empty, the bounded integers are within their
minimums and rootless is not explicitly false. -/
theorem Validate_eq_nil_iff (s : BuildTaskSpec) :
    Validate s = [] ↔
      ExactlyOneContextPayload s.context
        ∧ (∀ d, s.dockerfile = some d →
            dockerfileTypeViolations d = [] ∧ dockerfileRuleViolations d = [])
        ∧ RequiredStringsNonEmpty s
        ∧ SecretNamesNonEmpty s
        ∧ NumericBoundsHold s
        ∧ RootlessNotFalse s := by
  simp only [Validate, List.append_eq_nil, enumViolations_eq_nil_iff,
    minLengthViolations_eq_nil_iff, minimumViolations_eq_nil_iff,
    xValidationViolations_eq_nil_iff, ← contextValidation_eq_nil_iff, contextValidation]
  constructor
  · rintro ⟨⟨⟨⟨h1, h2⟩, h3, h4⟩, h5⟩, h6, h7, h8⟩
    exact ⟨⟨h1, h6⟩, fun d hd => ⟨h2 d hd, h7 d hd⟩, h3, h4, h5, h8⟩
  · rintro ⟨⟨h1, h6⟩, h27, h3, h4, h5, h8⟩
    exact ⟨⟨⟨⟨h1, fun d hd => (h27 d hd).1⟩, h3, h4⟩, h5⟩, h6, fun d hd => (h27 d hd).2, h8⟩

/-- A spec that validation accepts has no dockerfile section: as the source spells the two
dockerfile rules, a present dockerfile never passes them. -/
theorem dockerfile_none_of_Validate_eq_nil (s : BuildTaskSpec) (h : Validate s = []) :
    s.dockerfile = none := by
  cases hd : s.dockerfile with
  | none => rfl
  | some d =>
    exact absurd (((Validate_eq_nil_iff s).1 h).2.1 d hd).2 (dockerfileRuleViolations_ne_nil d)

theorem check_true (v : Violation) : check true v = [] := rfl

theorem contextRuleViolations_length_le (c : BuildContext) :
    (contextRuleViolations c).length ≤ 1 := by
  rcases c with ⟨t, g, p, x⟩
  simp only [contextRuleViolations, contextRuleGit, contextRulePVC, contextRuleS3]
  by_cases h1 : t = "Git"
  · subst h1
    simp only [beq_self_eq_true, if_true, String.reduceBEq, Bool.false_eq_true, if_false,
      check_true, List.append_nil, List.nil_append]
    exact check_length_le _ _
  · by_cases h2 : t = "PVC"
    · subst h2
      simp only [beq_self_eq_true, if_true, String.reduceBEq, Bool.false_eq_true, if_false,
        check_true, List.append_nil, List.nil_append]
      exact check_length_le _ _
    · by_cases h3 : t = "S3"
      · subst h3
        simp only [beq_self_eq_true, if_true, String.reduceBEq, Bool.false_eq_true, if_false,
          check_true, List.append_nil, List.nil_append]
        exact check_length_le _ _
      · simp [h1, h2, h3, check]

/-! ## Main results -/

/-- C1: the context validation (the Enum on `type` together with the three cross-field
rules) accepts a context if and only if its type is one of Git, PVC, S3 and exactly the
payload named by the type is present while the other two are absent. -/
theorem contextValidation_accepts_iff (c : BuildContext) :
    contextValidation c = [] ↔
      (c.type = "Git" ∧ c.git ≠ none ∧ c.pvc = none ∧ c.s3 = none)
        ∨ (c.type = "PVC" ∧ c.pvc ≠ none ∧ c.git = none ∧ c.s3 = none)
        ∨ (c.type = "S3" ∧ c.s3 ≠ none ∧ c.git = none ∧ c.pvc = none) :=
  contextValidation_eq_nil_iff c

/-- C2: the rootless rule rejects a BuildahSpec if and only if rootless is explicitly
false; an absent rootless and rootless=true are accepted and rootless=false is rejected
whatever storageDriver and env hold; a spec with no buildah section is never rejected by
the rule. -/
theorem rootless_rule_rejects_iff :
    (∀ b : BuildahSpec, buildahRuleViolations b ≠ [] ↔ b.rootless = some false)
      ∧ (∀ (storageDriver : String) (env : List EnvVar),
          buildahRuleViolations ⟨none, storageDriver, env⟩ = []
            ∧ buildahRuleViolations ⟨some true, storageDriver, env⟩ = []
            ∧ buildahRuleViolations ⟨some false, storageDriver, env⟩ ≠ [])
      ∧ (∀ s : BuildTaskSpec, s.buildah = none → specBuildahRuleViolations s = []) := by
  refine ⟨fun b => ?_, fun sd env => ?_, fun s h => ?_⟩
  · rw [Ne, buildahRuleViolations_eq_nil_iff, not_not]
  · simp [buildahRuleViolations_eq_nil_iff]
  · simp [specBuildahRuleViolations, checkOpt, h]

theorem rootless_rule_witness :
    gitSpec.buildah = none ∧ specBuildahRuleViolations gitSpec = [] :=
  ⟨rfl, rootless_rule_rejects_iff.2.2 gitSpec rfl⟩

/-- C5: evaluated at an Inline dockerfile with content, which meets both implications of
the claim (type = Path implies path non-empty and inline empty; type = Inline implies
inline non-empty), the two dockerfile cross-field rules as the source spells them reject
the value: neither rule compiles, and each reports at the dockerfile. -/
theorem dockerfileRules_reject_inline_with_content :
    ((inlineDockerfile.type = "Path" →
          inlineDockerfile.path ≠ "" ∧ inlineDockerfile.inline = "")
        ∧ (inlineDockerfile.type = "Inline" → inlineDockerfile.inline ≠ ""))
      ∧ dockerfileRulePath inlineDockerfile = CelResult.compileError
      ∧ dockerfileRuleInline inlineDockerfile = CelResult.compileError
      ∧ dockerfileRuleViolations inlineDockerfile
          = [⟨"spec.dockerfile", Rule.compileError⟩, ⟨"spec.dockerfile", Rule.compileError⟩]
      ∧ dockerfileRuleInlineWith asciiQuote inlineDockerfile = CelResult.value true := by
  refine ⟨⟨fun h => absurd h (by decide), fun _ => by decide⟩, by decide, by decide,
    by decide, by decide⟩

/-- C6: evaluated at a spec whose dockerfile has type Path with path and inline unset:
defaulting sets the path to "Dockerfile", as the claim says, but the defaulted value is
rejected by the dockerfile rules, where the claim says it is accepted.  As the source
spells them the rules do not compile; and with the literal spelled in ASCII quotes the
Path rule still fails, since it selects the absent key inline without a has guard. -/
theorem defaulted_path_dockerfile_rejected :
    (Default pathOnlySpec).dockerfile = some ⟨"Path", "Dockerfile", ""⟩
      ∧ defaultDockerfile pathOnlyDockerfile = ⟨"Path", "Dockerfile", ""⟩
      ∧ dockerfileTypeViolations (defaultDockerfile pathOnlyDockerfile) = []
      ∧ dockerfileRuleViolations (defaultDockerfile pathOnlyDockerfile)
          = [⟨"spec.dockerfile", Rule.compileError⟩, ⟨"spec.dockerfile", Rule.compileError⟩]
      ∧ Validate (Default pathOnlySpec)
          = [⟨"spec.dockerfile", Rule.compileError⟩, ⟨"spec.dockerfile", Rule.compileError⟩]
      ∧ dockerfileRulePathWith asciiQuote (defaultDockerfile pathOnlyDockerfile)
          = CelResult.noSuchKey "inline"
      ∧ specDockerfileRuleViolations gitSpec = [] := by
  refine ⟨by decide, by decide, by decide, by decide, by decide, by decide, by decide⟩

theorem someBoundViolated_iff (s : BuildTaskSpec) :
    SomeBoundViolated s ↔ ¬ NumericBoundsHold s := by
  simp only [SomeBoundViolated, NumericBoundsHold, not_and_or, not_forall, not_le,
    exists_prop, exists_and_left]

/-- C7: the numeric lower-bound checks reject a spec exactly when some present bounded
integer is below its minimum (git.depth < 1, timeoutSeconds < 1, backoffLimit < 0, a
retention TTL < 0); an absent bounded field never causes a violation, and the boundary
values depth = 1, timeoutSeconds = 1, backoffLimit = 0 and TTL = 0 are accepted. -/
theorem minimumViolations_reject_iff :
    (∀ s : BuildTaskSpec, minimumViolations s ≠ [] ↔ SomeBoundViolated s)
      ∧ (∀ s : BuildTaskSpec,
          (∀ g, s.context.git = some g → g.depth = none ∨ g.depth = some 1) →
          (s.timeoutSeconds = none ∨ s.timeoutSeconds = some 1) →
          (s.backoffLimit = none ∨ s.backoffLimit = some 0) →
          (∀ r, s.retention = some r →
            (r.successfulJobsTTLSecondsAfterFinished = none
                ∨ r.successfulJobsTTLSecondsAfterFinished = some 0)
              ∧ (r.failedJobsTTLSecondsAfterFinished = none
                ∨ r.failedJobsTTLSecondsAfterFinished = some 0)) →
          minimumViolations s = []) := by
  refine ⟨fun s => ?_, fun s hd ht hb hr => ?_⟩
  · rw [someBoundViolated_iff, Ne, minimumViolations_eq_nil_iff]
  · rw [minimumViolations_eq_nil_iff]
    refine ⟨fun g d hg hgd => ?_, fun t h => ?_, fun b h => ?_, fun r t h1 h2 => ?_,
      fun r t h1 h2 => ?_⟩
    · rcases hd g hg with h | h <;> rw [h] at hgd <;> simp at hgd
      omega
    · rcases ht with h0 | h0 <;> rw [h0] at h <;> simp at h
      omega
    · rcases hb with h0 | h0 <;> rw [h0] at h <;> simp at h
      omega
    · rcases (hr r h1).1 with h0 | h0 <;> rw [h0] at h2 <;> simp at h2
      omega
    · rcases (hr r h1).2 with h0 | h0 <;> rw [h0] at h2 <;> simp at h2
      omega

theorem minimumViolations_witness :
    minimumViolations boundarySpec = [] ∧ minimumViolations gitSpec = [] :=
  ⟨minimumViolations_reject_iff.2 boundarySpec
      (fun g hg => Or.inr (by cases hg; rfl)) (Or.inr rfl) (Or.inr rfl)
      (fun r hr => by cases hr; exact ⟨Or.inr rfl, Or.inr rfl⟩),
    minimumViolations_reject_iff.2 gitSpec
      (fun g hg => Or.inl (by cases hg; rfl)) (Or.inl rfl) (Or.inl rfl)
      (fun r hr => by cases hr)⟩

theorem mem_checkMinLength (path : String) (str : String) (v : Violation) :
    v ∈ checkMinLength path 1 str ↔ str = "" ∧ v = ⟨path, Rule.minLength 1⟩ := by
  rw [checkMinLength, mem_check, decide_eq_false_iff_not, one_le_length_iff, not_not]

theorem mem_checkOpt {α : Type} (f : α → List Violation) (o : Option α) (v : Violation) :
    v ∈ checkOpt f o ↔ ∃ x, o = some x ∧ v ∈ f x := by
  cases o <;> simp [checkOpt]

theorem mem_minLengthViolations (s : BuildTaskSpec) (v : Violation) :
    v ∈ minLengthViolations s ↔
      (s.image = "" ∧ v = ⟨"spec.image", Rule.minLength 1⟩)
        ∨ (∃ g, s.context.git = some g ∧
            ((g.url = "" ∧ v = ⟨"spec.context.git.url", Rule.minLength 1⟩)
              ∨ ∃ r, g.secretRef = some r ∧ r.name = ""
                  ∧ v = ⟨"spec.context.git.secretRef.name", Rule.minLength 1⟩))
        ∨ (∃ p, s.context.pvc = some p ∧ p.claimName = ""
            ∧ v = ⟨"spec.context.pvc.claimName", Rule.minLength 1⟩)
        ∨ (∃ x, s.context.s3 = some x ∧
            ((x.bucket = "" ∧ v = ⟨"spec.context.s3.bucket", Rule.minLength 1⟩)
              ∨ (x.key = "" ∧ v = ⟨"spec.context.s3.key", Rule.minLength 1⟩)
              ∨ ∃ r, x.secretRef = some r ∧ r.name = ""
                  ∧ v = ⟨"spec.context.s3.secretRef.name", Rule.minLength 1⟩))
        ∨ (∃ r, s.pushSecretRef = some r ∧ r.name = ""
            ∧ v = ⟨"spec.pushSecretRef.name", Rule.minLength 1⟩) := by
  simp only [minLengthViolations, gitMinLengthViolations, pvcMinLengthViolations,
    s3MinLengthViolations, secretRefViolations, List.mem_append, mem_checkOpt,
    mem_checkMinLength, or_assoc]

/-- C8: the required-string checks reject a spec whose image is empty, and a spec whose
payload selected by context.type has an empty required string (git.url for Git,
pvc.claimName for PVC, s3.bucket or s3.key for S3); conversely a spec whose image and
active payload's required strings are all non-empty raises no required-string violation
at these fields. -/
theorem requiredStrings_reject :
    (∀ s : BuildTaskSpec, s.image = "" →
        ⟨"spec.image", Rule.minLength 1⟩ ∈ minLengthViolations s)
      ∧ (∀ (s : BuildTaskSpec) (g : GitContext),
          s.context.type = "Git" → s.context.git = some g → g.url = "" →
          ⟨"spec.context.git.url", Rule.minLength 1⟩ ∈ minLengthViolations s)
      ∧ (∀ (s : BuildTaskSpec) (p : PVCContext),
          s.context.type = "PVC" → s.context.pvc = some p → p.claimName = "" →
          ⟨"spec.context.pvc.claimName", Rule.minLength 1⟩ ∈ minLengthViolations s)
      ∧ (∀ (s : BuildTaskSpec) (x : S3Context),
          s.context.type = "S3" → s.context.s3 = some x → x.bucket = "" →
          ⟨"spec.context.s3.bucket", Rule.minLength 1⟩ ∈ minLengthViolations s)
      ∧ (∀ (s : BuildTaskSpec) (x : S3Context),
          s.context.type = "S3" → s.context.s3 = some x → x.key = "" →
          ⟨"spec.context.s3.key", Rule.minLength 1⟩ ∈ minLengthViolations s)
      ∧ (∀ (s : BuildTaskSpec) (v : Violation),
          v ∈ minLengthViolations s → v ∈ Validate s ∧ Validate s ≠ [])
      ∧ (∀ s : BuildTaskSpec, ActiveRequiredStringsNonEmpty s →
          ∀ v ∈ minLengthViolations s, v.path ∉ activeRequiredStringPaths s) := by
  refine ⟨fun s h => ?_, fun s g _ hg h => ?_, fun s p _ hp h => ?_, fun s x _ hx h => ?_,
    fun s x _ hx h => ?_, fun s v hv => ?_, fun s h v hv => ?_⟩
  · rw [mem_minLengthViolations]
    exact Or.inl ⟨h, rfl⟩
  · rw [mem_minLengthViolations]
    exact Or.inr (Or.inl ⟨g, hg, Or.inl ⟨h, rfl⟩⟩)
  · rw [mem_minLengthViolations]
    exact Or.inr (Or.inr (Or.inl ⟨p, hp, h, rfl⟩))
  · rw [mem_minLengthViolations]
    exact Or.inr (Or.inr (Or.inr (Or.inl ⟨x, hx, Or.inl ⟨h, rfl⟩⟩)))
  · rw [mem_minLengthViolations]
    exact Or.inr (Or.inr (Or.inr (Or.inl ⟨x, hx, Or.inr (Or.inl ⟨h, rfl⟩)⟩)))
  · have hm : v ∈ Validate s := by
      simp only [Validate, List.mem_append]
      exact Or.inl (Or.inl (Or.inr hv))
    exact ⟨hm, List.ne_nil_of_mem hm⟩
  · obtain ⟨himg, hgit, hpvc, hs3⟩ := h
    rw [mem_minLengthViolations] at hv
    simp only [activeRequiredStringPaths]
    rcases hv with ⟨h0, rfl⟩ | ⟨g, hg, ⟨h0, rfl⟩ | ⟨r, _, _, rfl⟩⟩ | ⟨p, hp, h0, rfl⟩
      | ⟨x, hx, ⟨h0, rfl⟩ | ⟨h0, rfl⟩ | ⟨r, _, _, rfl⟩⟩ | ⟨r, _, _, rfl⟩
    · exact absurd h0 himg
    · by_cases ht : s.context.type = "Git"
      · exact absurd h0 (hgit ht g hg)
      · split_ifs <;> simp_all
    · split_ifs <;> simp
    · by_cases ht : s.context.type = "PVC"
      · exact absurd h0 (hpvc ht p hp)
      · split_ifs <;> simp_all
    · by_cases ht : s.context.type = "S3"
      · exact absurd h0 (hs3 ht x hx).1
      · split_ifs <;> simp_all
    · by_cases ht : s.context.type = "S3"
      · exact absurd h0 (hs3 ht x hx).2
      · split_ifs <;> simp_all
    · split_ifs <;> simp
    · split_ifs <;> simp

theorem requiredStrings_witness :
    (⟨"spec.image", Rule.minLength 1⟩ : Violation)
        ∈ minLengthViolations { gitSpec with image := "" }
      ∧ ∀ v ∈ minLengthViolations gitWithPVCSpec,
          v.path ∉ activeRequiredStringPaths gitWithPVCSpec :=
  ⟨requiredStrings_reject.1 { gitSpec with image := "" } rfl,
    requiredStrings_reject.2.2.2.2.2.2 gitWithPVCSpec
      ⟨by decide, fun _ g hg => by cases hg; decide, fun h => absurd h (by decide),
        fun h => absurd h (by decide)⟩⟩

/-- C9: for an otherwise-valid spec whose context has type Git and also has the pvc
payload set, validation returns exactly one violation, the cross-field violation on the
context field; and for every context at most one of the three context cross-field rules is
violated, since each rule constrains only the context whose type equals its own tag. -/
theorem git_with_pvc_one_violation :
    (∀ s : BuildTaskSpec, s.context.type = "Git" → s.context.pvc ≠ none →
        OtherwiseValid s →
        Validate s = [⟨"spec.context", Rule.xvalidation contextMessageGit⟩])
      ∧ (∀ c : BuildContext, (contextRuleViolations c).length ≤ 1)
      ∧ (∀ c : BuildContext,
          (c.type ≠ "Git" → contextRuleGit c = true)
            ∧ (c.type ≠ "PVC" → contextRulePVC c = true)
            ∧ (c.type ≠ "S3" → contextRuleS3 c = true)) := by
  refine ⟨fun s ht hp h => ?_, contextRuleViolations_length_le, fun c => ?_⟩
  · obtain ⟨h1, h2, h3, h4, h5⟩ := h
    have hg : contextRuleGit s.context = false := by
      cases hpvc : s.context.pvc with
      | none => exact absurd hpvc hp
      | some p => simp [contextRuleGit, ht, hpvc]
    have hP : contextRulePVC s.context = true := by simp [contextRulePVC, ht]
    have hS : contextRuleS3 s.context = true := by simp [contextRuleS3, ht]
    simp [Validate, xValidationViolations, contextRuleViolations, h1, h2, h3, h4, h5, hg,
      hP, hS, check]
  · refine ⟨fun h => ?_, fun h => ?_, fun h => ?_⟩
    · simp [contextRuleGit, h]
    · simp [contextRulePVC, h]
    · simp [contextRuleS3, h]

theorem git_with_pvc_witness :
    Validate gitWithPVCSpec = [⟨"spec.context", Rule.xvalidation contextMessageGit⟩] :=
  git_with_pvc_one_violation.1 gitWithPVCSpec rfl (by decide)
    ⟨by decide, by decide, by decide, by decide, by decide⟩

theorem claimedValid_emptySecretNameSpec : ClaimedValid emptySecretNameSpec := by
  refine ⟨Or.inl ⟨rfl, (by decide), rfl, rfl⟩, ?_, ⟨(by decide), ?_, ?_, ?_⟩,
    ⟨?_, ?_, ?_, ?_, ?_⟩, ?_⟩
  · intro d hd
    cases hd
  · intro g hg
    cases hg
    decide
  · intro p hp
    cases hp
  · intro x hx
    cases hx
  · intro g d hg hd
    cases hg
    cases hd
  · intro t ht
    cases ht
  · intro b hb
    cases hb
  · intro r t hr
    cases hr
  · intro r t hr
    cases hr
  · intro b hb
    cases hb

/-- C3, as stated, fails: a spec that meets every condition the claim lists is rejected,
because a secret reference has an empty name. -/
theorem Validate_iff_claimed_counterexample :
    ClaimedValid emptySecretNameSpec
      ∧ Validate emptySecretNameSpec = [⟨"spec.pushSecretRef.name", Rule.minLength 1⟩] :=
  ⟨claimedValid_emptySecretNameSpec, by decide⟩

/-- C3, amended: validation returns no violations only if exactly one context payload is
present and matches context.type, the dockerfile (if present) has exactly one payload
matching dockerfile.type, the required strings are non-empty, every present bounded integer
satisfies its minimum, buildah.rootless is not explicitly false, and the names of all
present secret references are non-empty; and for a spec with no dockerfile section these
conditions are also sufficient. -/
theorem Validate_accepts_iff :
    (∀ s : BuildTaskSpec, Validate s = [] → ClaimedValid s ∧ SecretNamesNonEmpty s)
      ∧ (∀ s : BuildTaskSpec, s.dockerfile = none →
          ClaimedValid s → SecretNamesNonEmpty s → Validate s = []) := by
  constructor
  · intro s h
    have hv := (Validate_eq_nil_iff s).1 h
    have hd := dockerfile_none_of_Validate_eq_nil s h
    refine ⟨⟨hv.1, fun d h => ?_, hv.2.2.1, hv.2.2.2.2.1, hv.2.2.2.2.2⟩, hv.2.2.2.1⟩
    rw [hd] at h
    cases h
  · intro s hd hc hs
    refine (Validate_eq_nil_iff s).2 ⟨hc.1, fun d h => ?_, hc.2.2.1, hs, hc.2.2.2.1, hc.2.2.2.2⟩
    rw [hd] at h
    cases h

theorem Validate_accepts_witness :
    secretSpec.dockerfile = none
      ∧ ClaimedValid secretSpec
      ∧ SecretNamesNonEmpty secretSpec
      ∧ Validate secretSpec = [] := by
  have h1 : ExactlyOneContextPayload secretSpec.context :=
    Or.inl ⟨rfl, (by decide), rfl, rfl⟩
  have h2 : RequiredStringsNonEmpty secretSpec := by
    refine ⟨(by decide), ?_, ?_, ?_⟩
    · intro g hg
      cases hg
      decide
    · intro p hp
      cases hp
    · intro x hx
      cases hx
  have h3 : SecretNamesNonEmpty secretSpec := by
    refine ⟨?_, ?_, ?_⟩
    · intro g r hg hr
      cases hg
      cases hr
    · intro x r hx
      cases hx
    · intro r hr
      cases hr
      decide
  have h4 : NumericBoundsHold secretSpec := by
    refine ⟨?_, ?_, ?_, ?_, ?_⟩
    · intro g d hg hd
      cases hg
      cases hd
    · intro t ht
      cases ht
    · intro b hb
      cases hb
    · intro r t hr
      cases hr
    · intro r t hr
      cases hr
  have h5 : RootlessNotFalse secretSpec := by
    intro b hb
    cases hb
  have h0 : ∀ d, secretSpec.dockerfile = some d → ExactlyOneDockerfilePayload d := by
    intro d hd
    cases hd
  have hc : ClaimedValid secretSpec := ⟨h1, h0, h2, h4, h5⟩
  exact ⟨rfl, hc, h3, Validate_accepts_iff.2 secretSpec rfl hc h3⟩

/-- C4: in every spec that validation accepts, exactly one context payload is set and it
matches context.type, and, when a dockerfile is present, exactly one dockerfile payload is
set and it matches dockerfile.type: type Path implies path non-empty and inline empty, and
type Inline implies inline non-empty and path empty. -/
theorem valid_spec_payloads (s : BuildTaskSpec) (h : Validate s = []) :
    ExactlyOneContextPayload s.context
      ∧ ∀ d, s.dockerfile = some d →
          ExactlyOneDockerfilePayload d
            ∧ (d.type = "Path" → d.path ≠ "" ∧ d.inline = "")
            ∧ (d.type = "Inline" → d.inline ≠ "" ∧ d.path = "") := by
  refine ⟨((Validate_eq_nil_iff s).1 h).1, fun d hd => ?_⟩
  rw [dockerfile_none_of_Validate_eq_nil s h] at hd
  cases hd

theorem valid_spec_payloads_witness :
    Validate gitSpec = [] ∧ ExactlyOneContextPayload gitSpec.context :=
  ⟨by decide, (valid_spec_payloads gitSpec (by decide)).1⟩

end Kubuild
